import Mathlib

/-!
Verification of the Cellframe-navigator transaction-watcher core.

Shallow embedding of:
* `src/data/repositories.py` — `TransactionRepository.update_status`
* `src/watcher/tx_monitor.py` — `TransactionMonitor._check_transaction`,
  `TransactionMonitor._send_confirmation_notification`
* `src/watcher/rpc_manager.py` — `RPCManager._is_node_available`,
  `_record_success`, `_record_failure`, `call_with_retry`
* `src/watcher/chains/base.py` — `BaseChainWatcher.collect`, `_collect_safe`
* `src/watcher/evm_tracker.py` — `EVMTransactionTracker`
* `src/watcher/cf20_rpc.py` — `CF20RPCClient.tx_status`

Python integers are modelled as `Int`, optional values as `Option`,
fallible calls as `Except`/`Option`.  Python truthiness tests
(`if block_number:`, `if status:`) are modelled explicitly.
-/

/-- A row of the `transactions` table (`src/data/models.py`, class
`Transaction`), restricted to the fields the watcher core reads or writes. -/
structure Transaction where
  hash : String
  chain : String
  block_number : Option Int
  confirmations : Int
  confirmations_required : Int
  status : String
  confirmed : Bool
deriving DecidableEq, Repr

/-- Python truthiness of an `Optional[int]`: `None` and `0` are falsy. -/
def truthyOptInt : Option Int → Bool
  | none => false
  | some b => b != 0

/-- Python truthiness of an `Optional[str]`: `None` and `""` are falsy. -/
def truthyOptStr : Option String → Bool
  | none => false
  | some s => s != ""

namespace TransactionRepository

/-- The mutation body of `TransactionRepository.update_status`
(`src/data/repositories.py` lines 222–231), applied to the row selected by
hash: set `confirmations` unconditionally, set `block_number` when the
argument is truthy, set `status` when the argument is truthy, then force
`confirmed := True` and `status := "confirmed"` whenever
`confirmations >= confirmations_required`. -/
def updateFields (tx : Transaction) (confirmations : Int)
    (block_number : Option Int) (status : Option String) : Transaction :=
  let tx := { tx with confirmations := confirmations }
  let tx := if truthyOptInt block_number then { tx with block_number := block_number } else tx
  let tx :=
    match status with
    | some s => if s != "" then { tx with status := s } else tx
    | none => tx
  if tx.confirmations_required ≤ confirmations then
    { tx with confirmed := true, status := "confirmed" }
  else tx

/-- `TransactionRepository.update_status` (`src/data/repositories.py`
lines 210–232): select the transaction by hash; if present, apply the
field updates; if absent, do nothing.  The table is modelled as a list of
rows; `hash` is unique per chain, so at most one row matches. -/
def update_status (store : List Transaction) (tx_hash : String)
    (confirmations : Int) (block_number : Option Int)
    (status : Option String) : List Transaction :=
  store.map fun tx =>
    if tx.hash = tx_hash then updateFields tx confirmations block_number status else tx

end TransactionRepository

/-- The dictionary returned by `EVMTransactionTracker.get_transaction_status`
(`src/watcher/evm_tracker.py` lines 86–95).  The Python key `exists` is a
Lean keyword and is rendered `txExists`. -/
structure TxStatusInfo where
  hash : String
  txExists : Bool
  pending : Bool
  confirmed : Bool
  success : Bool
  confirmations : Int
  block_number : Option Int
  error : Option String
deriving DecidableEq, Repr

/-- A notification request issued by the monitor: either the "confirmed"
notification (`_send_confirmation_notification`) or an intermediate
progress notification (`_send_progress_notification`). -/
inductive Notification where
  | confirmedNote (tx_hash : String) (confirmations : Int)
  | progressNote (tx_hash : String) (confirmations : Int)
deriving DecidableEq, Repr

/-- Whether a notification request is an intermediate progress one. -/
def Notification.isProgress : Notification → Bool
  | .progressNote _ _ => true
  | .confirmedNote _ _ => false

namespace TransactionMonitor

/-- `TransactionMonitor._check_transaction` (`src/watcher/tx_monitor.py`
lines 102–146), as a pure function of the tick's inputs.  `trackerFound`
is whether `self.trackers` has an entry for `tx.chain`; `tx_info` is the
tracker's answer (`none` for a falsy dict).  Returns the updated table and
the notification requests issued during the tick.  The source reads
`old_confirmations` from the record *before* calling
`TransactionRepository.update_status`, writes the freshly read count
through it unconditionally, then requests the "confirmed" notification on
crossing the required threshold, or one progress notification when the
new count strictly grew and is exactly 3, 6 or 9. -/
def check_transaction (trackerFound : Bool) (tx_info : Option TxStatusInfo)
    (tx : Transaction) (store : List Transaction) :
    List Transaction × List Notification :=
  if !trackerFound then (store, [])
  else
    match tx_info with
    | none => (store, [])
    | some info =>
      if !info.txExists then (store, [])
      else
        let confirmations := info.confirmations
        let block_number := info.block_number
        let old_confirmations := tx.confirmations
        let store' := TransactionRepository.update_status store tx.hash confirmations block_number none
        if tx.confirmations_required ≤ confirmations ∧
            old_confirmations < tx.confirmations_required then
          (store', [Notification.confirmedNote tx.hash confirmations])
        else if old_confirmations < confirmations ∧
            (confirmations = 3 ∨ confirmations = 6 ∨ confirmations = 9) then
          (store', [Notification.progressNote tx.hash confirmations])
        else
          (store', [])

end TransactionMonitor

/-- One entry of the Redis dedup store: key, TTL in seconds, value. -/
structure RedisEntry where
  key : String
  ttl : Nat
  value : String
deriving DecidableEq, Repr

/-- The Redis notification-dedup store, modelled as its set of live
entries. -/
structure RedisStore where
  entries : List RedisEntry
deriving DecidableEq, Repr

/-- `redis.get key`: the value of the live entry for `key`, if any. -/
def RedisStore.get (r : RedisStore) (key : String) : Option String :=
  (r.entries.find? fun e => e.key = key).map RedisEntry.value

/-- `redis.setex key ttl value`: store `value` under `key` with a TTL. -/
def RedisStore.setex (r : RedisStore) (key : String) (ttl : Nat) (value : String) : RedisStore :=
  ⟨{ key := key, ttl := ttl, value := value } :: r.entries.filter fun e => e.key ≠ key⟩

/-- TTL of the live entry for `key`, if any. -/
def RedisStore.ttlOf (r : RedisStore) (key : String) : Option Nat :=
  (r.entries.find? fun e => e.key = key).map RedisEntry.ttl

namespace TransactionMonitor

/-- The dedup key built in `_send_confirmation_notification`
(`src/watcher/tx_monitor.py` line 170):
`notification_key = f"notified:\x7btx.hash\x7d:\x7buser_id\x7d:confirmed"`. -/
def notificationKey (tx_hash : String) (user_id : Nat) : String :=
  "notified:" ++ tx_hash ++ ":" ++ toString user_id ++ ":confirmed"

/-- `TransactionMonitor._send_confirmation_notification`
(`src/watcher/tx_monitor.py` lines 148–201), success path, as a pure
function: consult Redis (when configured) for the dedup key; if present,
skip; otherwise deliver the message and mark the key sent with
`setex key 604800 "1"` (7 days).  Returns the new Redis state and the
number of delivery requests made (0 or 1). -/
def send_confirmation_notification (redis : Option RedisStore)
    (tx_hash : String) (user_id : Nat) : Option RedisStore × Nat :=
  match redis with
  | some r =>
    let key := notificationKey tx_hash user_id
    match r.get key with
    | some _ => (some r, 0)
    | none => (some (r.setex key 604800 "1"), 1)
  | none => (none, 1)

end TransactionMonitor

/-- `RPCNode` (`src/watcher/rpc_manager.py` lines 20–27): one RPC endpoint
with its health counters.  Timestamps are seconds as integers. -/
structure RPCNode where
  url : String
  name : String
  priority : Int
  failures : Nat
  last_failure : Int
deriving DecidableEq, Repr

/-- The configuration of `RPCManager.__init__` (`src/watcher/rpc_manager.py`
lines 41–66).  Backoff delays are irrelevant to the value computed, so only
the counters' parameters are carried. -/
structure RPCManagerCfg where
  max_retries : Nat
  circuit_breaker_threshold : Nat
  circuit_breaker_timeout : Int
deriving DecidableEq, Repr

namespace RPCManager

/-- `RPCManager._is_node_available` (`src/watcher/rpc_manager.py`
lines 68–80).  `now` stands for `time.time()`.  Note the source *mutates*
the node when the cooldown has elapsed (`node.failures = 0`), so the
function returns the possibly-updated node alongside the availability
flag. -/
def is_node_available (cfg : RPCManagerCfg) (now : Int) (node : RPCNode) :
    Bool × RPCNode :=
  if node.failures < cfg.circuit_breaker_threshold then (true, node)
  else if cfg.circuit_breaker_timeout < now - node.last_failure then
    (true, { node with failures := 0 })
  else (false, node)

/-- `RPCManager._record_success` (lines 82–84): reset the failure counter. -/
def record_success (node : RPCNode) : RPCNode :=
  { node with failures := 0 }

/-- `RPCManager._record_failure` (lines 86–95): increment the failure
counter and stamp the failure time. -/
def record_failure (now : Int) (node : RPCNode) : RPCNode :=
  { node with failures := node.failures + 1, last_failure := now }

/-- The inner attempt loop of `call_with_retry` (lines 126–159): up to
`max_retries` attempts against one endpoint, returning the first success.
`f k` is the outcome of attempt `k` against that endpoint (`none` models a
raised exception). -/
def attemptLoop {R : Type} (f : Nat → Option R) (max_retries : Nat) : Option R :=
  (List.range max_retries).findSome? f

/-- `RPCManager.call_with_retry` (`src/watcher/rpc_manager.py`
lines 97–169) over the priority-sorted node list.  `f url k` is the
outcome of attempt `k` against the endpoint at `url` (`none` models a
raised exception).  Skips endpoints reported unavailable (keeping any
mutation done by the availability check), returns on the first success
after `_record_success`, records a failure and moves on when an endpoint's
retries are exhausted, and returns `none` (the aggregated `raise`) when
every endpoint is skipped or exhausted.  The returned list is the nodes'
final state. -/
def call_with_retry {R : Type} (cfg : RPCManagerCfg) (now : Int)
    (f : String → Nat → Option R) : List RPCNode → Option R × List RPCNode
  | [] => (none, [])
  | node :: rest =>
    let (avail, node) := is_node_available cfg now node
    if avail then
      match attemptLoop (f node.url) cfg.max_retries with
      | some r => (some r, record_success node :: rest)
      | none =>
        let node := record_failure now node
        let (res, rest') := call_with_retry cfg now f rest
        (res, node :: rest')
    else
      let (res, rest') := call_with_retry cfg now f rest
      (res, node :: rest')

end RPCManager

namespace BaseChainWatcher

/-- `BaseChainWatcher._collect_safe` (`src/watcher/chains/base.py`
lines 29–36): run one polling source; a raised exception is caught, logged
once, and turned into an empty batch.  The source's outcome (a list of
events, or the exception message) is the `Except` argument. -/
def collect_safe {α : Type} : Except String (List α) → List α
  | .ok data => data
  | .error _ => []

/-- `BaseChainWatcher.collect` (`src/watcher/chains/base.py` lines 23–27):
the concatenation of the two safely-collected batches, from
`poll_new_transactions` and `poll_mempool`.  Total by construction — it
never propagates an exception. -/
def collect {α : Type} (newTxs mempool : Except String (List α)) : List α :=
  collect_safe newTxs ++ collect_safe mempool

end BaseChainWatcher

/-- The fields of an EVM transaction object the tracker reads
(`tx.get("blockNumber")`). -/
structure EvmTx where
  blockNumber : Option Int
deriving DecidableEq, Repr

/-- The fields of an EVM transaction receipt the tracker reads
(`receipt.get("status")`). -/
structure EvmReceipt where
  status : Option Int
deriving DecidableEq, Repr

/-- One consistent snapshot of what the node answers during a tracker
call: the outcome of `eth.get_transaction` (`Except.error` models a raised
exception, including "not found"), the current `eth.block_number`, and the
outcome of `eth.get_transaction_receipt` (`none` models an exception or a
missing receipt, both of which `get_transaction_receipt` maps to `None`). -/
structure EvmView where
  tx : Except String EvmTx
  block_number : Int
  receipt : Option EvmReceipt
deriving Repr

namespace EVMTransactionTracker

/-- `EVMTransactionTracker.get_transaction_confirmations`
(`src/watcher/evm_tracker.py` lines 31–55): 0 when the fetch raises or the
transaction is unmined, else `max(0, current_block - tx.blockNumber + 1)`. -/
def get_transaction_confirmations (view : EvmView) : Int :=
  match view.tx with
  | .error _ => 0
  | .ok tx =>
    match tx.blockNumber with
    | none => 0
    | some b => max 0 (view.block_number - b + 1)

/-- `EVMTransactionTracker.get_transaction_status`
(`src/watcher/evm_tracker.py` lines 76–124): build the status dictionary.
`required` is `self.confirmations_required`.  A raised `get_transaction`
leaves `exists` false and records the error; an unmined transaction is
reported pending; otherwise confirmations, the confirmed flag, and — when
a receipt is available — success versus revert are filled in. -/
def get_transaction_status (required : Int) (tx_hash : String)
    (view : EvmView) : TxStatusInfo :=
  let base : TxStatusInfo :=
    { hash := tx_hash, txExists := false, pending := false, confirmed := false,
      success := false, confirmations := 0, block_number := none, error := none }
  match view.tx with
  | .error e => { base with error := some e }
  | .ok tx =>
    let base := { base with txExists := true }
    match tx.blockNumber with
    | none => { base with pending := true }
    | some b =>
      let confirmations := get_transaction_confirmations view
      let base := { base with
        block_number := some b,
        confirmations := confirmations,
        confirmed := decide (required ≤ confirmations) }
      match view.receipt with
      | none => base
      | some receipt =>
        if receipt.status = some 1 then { base with success := true }
        else { base with success := false, error := some "Transaction failed (reverted)" }

end EVMTransactionTracker

/-- The fields of a ledger (`tx_history`) entry that `tx_status` reads:
`tx.get("status")`, `none` when the field is missing. -/
structure LedgerTx where
  status : Option String
deriving DecidableEq, Repr

namespace CF20RPCClient

/-- `CF20RPCClient.tx_status` (`src/watcher/cf20_rpc.py` lines 234–261) as
a function of the two RPC answers it consumes: `in_mempool` is the result
of `mempool_check` (which itself never raises — exceptions become
`False`), and `txs` the result of `tx_history` (exceptions become `[]`).
Mempool first: present → `"pending"`.  Otherwise the first history entry's
native status is mapped: `"accepted"` → `"confirmed"`, `"declined"` →
`"error"`, any other present status is passed through, a missing status
becomes `"unknown"`; an empty history yields `none`. -/
def tx_status (in_mempool : Bool) (txs : List LedgerTx) : Option String :=
  if in_mempool then some "pending"
  else
    match txs with
    | [] => none
    | tx :: _ =>
      match tx.status with
      | some s =>
        if s = "accepted" then some "confirmed"
        else if s = "declined" then some "error"
        else some s
      | none => some "unknown"

end CF20RPCClient

/-! ### Concrete fixtures used by counterexamples and witnesses -/

/-- A tracked transaction stored with 10 of 12 required confirmations. -/
def txMid : Transaction :=
  { hash := "m", chain := "ethereum", block_number := some 50, confirmations := 10,
    confirmations_required := 12, status := "confirming", confirmed := false }

/-- A tracker read for `txMid` reporting only 3 confirmations (a read
anomaly: lower than the stored 10). -/
def infoLow : TxStatusInfo :=
  { hash := "m", txExists := true, pending := false, confirmed := false,
    success := false, confirmations := 3, block_number := some 50, error := none }

/-- A freshly tracked transaction stored with 0 confirmations. -/
def txZero : Transaction :=
  { hash := "z", chain := "ethereum", block_number := none, confirmations := 0,
    confirmations_required := 12, status := "pending", confirmed := false }

/-- A tracker read for `txZero` reporting 12 confirmations at once. -/
def infoJump : TxStatusInfo :=
  { hash := "z", txExists := true, pending := false, confirmed := true,
    success := true, confirmations := 12, block_number := some 40, error := none }

/-- A tracker read for `txZero` reporting 3 confirmations. -/
def infoThree : TxStatusInfo :=
  { hash := "z", txExists := true, pending := false, confirmed := false,
    success := false, confirmations := 3, block_number := some 40, error := none }

/-- A stored transaction already in the terminal `confirmed` status. -/
def txDone : Transaction :=
  { hash := "d", chain := "bsc", block_number := some 100, confirmations := 15,
    confirmations_required := 15, status := "confirmed", confirmed := true }

/-- An endpoint whose failure counter sits exactly at the default
circuit-breaker threshold, last failure at time 0. -/
def staleNode : RPCNode :=
  { url := "u", name := "n", priority := 0, failures := 5, last_failure := 0 }

/-- The default `RPCManager` configuration (`max_retries = 3`,
`circuit_breaker_threshold = 5`, `circuit_breaker_timeout = 60`). -/
def cfgDefault : RPCManagerCfg :=
  { max_retries := 3, circuit_breaker_threshold := 5, circuit_breaker_timeout := 60 }

/-- Three healthy endpoints in priority order. -/
def nodeA : RPCNode := { url := "u1", name := "n1", priority := 0, failures := 0, last_failure := 0 }

/-- Second healthy endpoint. -/
def nodeB : RPCNode := { url := "u2", name := "n2", priority := 1, failures := 0, last_failure := 0 }

/-- Third healthy endpoint. -/
def nodeC : RPCNode := { url := "u3", name := "n3", priority := 2, failures := 0, last_failure := 0 }

/-- A call behaviour where every attempt against `u1` and `u2` raises and
every attempt against `u3` returns 42. -/
def behaviorThird : String → Nat → Option Nat :=
  fun url _ => if url = "u3" then some 42 else none

/-- An EVM snapshot: transaction mined at block 5, head at block 10,
successful receipt. -/
def viewMined : EvmView :=
  { tx := Except.ok { blockNumber := some 5 }, block_number := 10,
    receipt := some { status := some 1 } }

/-! ### Helper lemmas about the repository write path -/

/-- `updateFields` never changes the `hash` column. -/
theorem updateFields_hash (tx : Transaction) (c : Int) (bn : Option Int)
    (st : Option String) :
    (TransactionRepository.updateFields tx c bn st).hash = tx.hash := by
  unfold TransactionRepository.updateFields
  cases st <;> dsimp only [] <;> split <;> try split
  all_goals first | rfl | (split <;> rfl)

/-- `updateFields` never changes the `confirmations_required` column. -/
theorem updateFields_required (tx : Transaction) (c : Int) (bn : Option Int)
    (st : Option String) :
    (TransactionRepository.updateFields tx c bn st).confirmations_required
      = tx.confirmations_required := by
  unfold TransactionRepository.updateFields
  cases st <;> dsimp only [] <;> split <;> try split
  all_goals first | rfl | (split <;> rfl)

/-- `updateFields` always stores the confirmation count it is passed. -/
theorem updateFields_confirmations (tx : Transaction) (c : Int) (bn : Option Int)
    (st : Option String) :
    (TransactionRepository.updateFields tx c bn st).confirmations = c := by
  unfold TransactionRepository.updateFields
  cases st <;> dsimp only [] <;> split <;> try split
  all_goals first | rfl | (split <;> rfl)

/-- Every row of `update_status`'s output is either an untouched row of
the input or the updated image of a matching row. -/
theorem update_status_mem (store : List Transaction) (tx_hash : String)
    (c : Int) (bn : Option Int) (st : Option String) (t : Transaction)
    (ht : t ∈ TransactionRepository.update_status store tx_hash c bn st) :
    (t ∈ store ∧ t.hash ≠ tx_hash) ∨
      ∃ tx ∈ store, tx.hash = tx_hash ∧ t = TransactionRepository.updateFields tx c bn st := by
  unfold TransactionRepository.update_status at ht
  rcases List.mem_map.mp ht with ⟨tx, htx, heq⟩
  by_cases hh : tx.hash = tx_hash
  · exact Or.inr ⟨tx, htx, hh, by rw [← heq, if_pos hh]⟩
  · refine Or.inl ?_
    rw [← heq, if_neg hh]
    exact ⟨htx, hh⟩

/-- Closed form of `updateFields`: the written row as a function of the
threshold test. -/
theorem updateFields_def (tx : Transaction) (c : Int) (bn : Option Int)
    (st : Option String) :
    TransactionRepository.updateFields tx c bn st =
      if tx.confirmations_required ≤ c then
        { hash := tx.hash, chain := tx.chain,
          block_number := if truthyOptInt bn then bn else tx.block_number,
          confirmations := c, confirmations_required := tx.confirmations_required,
          status := "confirmed", confirmed := true }
      else
        { hash := tx.hash, chain := tx.chain,
          block_number := if truthyOptInt bn then bn else tx.block_number,
          confirmations := c, confirmations_required := tx.confirmations_required,
          status := match st with
            | some s => if s != "" then s else tx.status
            | none => tx.status,
          confirmed := tx.confirmed } := by
  unfold TransactionRepository.updateFields
  cases st <;> dsimp only [] <;> split_ifs <;> rfl

/-! ### C10 — forced "confirmed" overwrite and silent no-op -/

/-- C10: whenever `TransactionRepository.update_status` is called with a
confirmation count at or above the matching record's
`confirmations_required`, it sets `confirmed := true` and overwrites
`status` to `"confirmed"` regardless of the status argument passed
(including `"failed"`), so through this operation a deeply-confirmed
transaction is always stored as `"confirmed"`; and `update_status` for a
hash with no matching record is a silent no-op that changes nothing. -/
theorem update_status_forces_confirmed_and_noop
    (store : List Transaction) (tx_hash : String) (c : Int)
    (bn : Option Int) (st : Option String) :
    (∀ t ∈ TransactionRepository.update_status store tx_hash c bn st,
        t.hash = tx_hash → t.confirmations_required ≤ c →
          t.status = "confirmed" ∧ t.confirmed = true) ∧
    ((∀ tx ∈ store, tx.hash ≠ tx_hash) →
        TransactionRepository.update_status store tx_hash c bn st = store) := by
  constructor
  · intro t ht hh hc
    rcases update_status_mem store tx_hash c bn st t ht with ⟨_, hne⟩ | ⟨tx, _, _, rfl⟩
    · exact absurd hh hne
    · have hreq : tx.confirmations_required ≤ c := by
        rwa [updateFields_required] at hc
      rw [updateFields_def, if_pos hreq]
      exact ⟨rfl, rfl⟩
  · intro hnone
    unfold TransactionRepository.update_status
    calc store.map (fun tx =>
            if tx.hash = tx_hash then TransactionRepository.updateFields tx c bn st else tx)
        = store.map (fun tx => tx) :=
          List.map_congr_left (fun a ha => if_neg (hnone a ha))
      _ = store := List.map_id' store

/-- C10 witness: a record with 0 of 12 confirmations updated to 12 with
status argument `"failed"` is stored as `"confirmed"`; updating a hash
absent from the table leaves it unchanged. -/
theorem update_status_forces_confirmed_and_noop_witness :
    (TransactionRepository.updateFields txZero 12 none (some "failed")).status = "confirmed" ∧
    (TransactionRepository.updateFields txZero 12 none (some "failed")).confirmed = true ∧
    TransactionRepository.update_status [txZero] "absent" 3 none none = [txZero] := by
  refine ⟨?_, ?_, ?_⟩
  · exact ((update_status_forces_confirmed_and_noop [txZero] "z" 12 none (some "failed")).1
      (TransactionRepository.updateFields txZero 12 none (some "failed"))
      (by decide) (by decide) (by decide)).1
  · exact ((update_status_forces_confirmed_and_noop [txZero] "z" 12 none (some "failed")).1
      (TransactionRepository.updateFields txZero 12 none (some "failed"))
      (by decide) (by decide) (by decide)).2
  · exact (update_status_forces_confirmed_and_noop [txZero] "absent" 3 none none).2 (by decide)

/-! ### C4 — terminal statuses are not protected at the write boundary -/

/-- C4 counterexample: a record already in the terminal `"confirmed"`
status is overwritten to `"pending"` by `update_status` — the illegal
transition confirmed → pending is not rejected. -/
theorem update_status_confirmed_to_pending :
    txDone.status = "confirmed" ∧ txDone.confirmed = true ∧
    (TransactionRepository.update_status [txDone] "d" 5 none (some "pending")).map
        Transaction.status = ["pending"] := by
  decide

/-- C4 (amended): `update_status` performs no transition validation: any
non-empty status argument overwrites the stored status of the matching
record whenever the new count is below the record's threshold — in
particular a terminal `confirmed` or `failed` record is overwritten, e.g.
confirmed → pending. -/
theorem update_status_overwrites_any_status
    (store : List Transaction) (tx_hash : String) (c : Int) (bn : Option Int)
    (s : String) (hs : (s != "") = true) :
    ∀ t ∈ TransactionRepository.update_status store tx_hash c bn (some s),
      t.hash = tx_hash → c < t.confirmations_required → t.status = s := by
  intro t ht hh hc
  rcases update_status_mem store tx_hash c bn (some s) t ht with ⟨_, hne⟩ | ⟨tx, _, _, rfl⟩
  · exact absurd hh hne
  · have hreq : c < tx.confirmations_required := by
      rwa [updateFields_required] at hc
    rw [updateFields_def, if_neg (not_le.mpr hreq)]
    simp [hs]

/-- C4 witness: the amended statement applied to the confirmed record
`txDone` with status argument `"pending"` and 5 < 15 confirmations. -/
theorem update_status_overwrites_any_status_witness :
    (TransactionRepository.updateFields txDone 5 none (some "pending")).status = "pending" :=
  update_status_overwrites_any_status [txDone] "d" 5 none "pending" (by decide)
    (TransactionRepository.updateFields txDone 5 none (some "pending"))
    (by decide) (by decide) (by decide)

/-! ### C1 — stored confirmation counts follow the read, even downwards -/

/-- The stored-table component of a `_check_transaction` tick on an
existing transaction is exactly the `update_status` write of the freshly
read count — every notification branch writes the same table. -/
theorem check_transaction_store_eq (info : TxStatusInfo) (tx : Transaction)
    (store : List Transaction) (hex : info.txExists = true) :
    (TransactionMonitor.check_transaction true (some info) tx store).1
      = TransactionRepository.update_status store tx.hash info.confirmations
          info.block_number none := by
  unfold TransactionMonitor.check_transaction
  simp only [Bool.not_true, Bool.false_eq_true, if_false, hex]
  split
  · rfl
  · split <;> rfl

/-- C1 counterexample: a record stored with 10 of 12 confirmations, on a
tick whose tracker read reports only 3, is written back with 3 — the
update path propagates the lower count instead of keeping the stored
value. -/
theorem check_transaction_writes_lower_count :
    txMid.confirmations = 10 ∧ infoLow.confirmations = 3 ∧
    (TransactionMonitor.check_transaction true (some infoLow) txMid [txMid]).1.map
        Transaction.confirmations = [3] := by
  decide

/-- C1 (amended): on every `_check_transaction` tick for an existing
transaction, the matching stored record's confirmation count afterwards
equals the count the tracker read — the write is unconditional, with no
monotonicity guard, so a lower read decreases the stored value. -/
theorem check_transaction_writes_read_count (info : TxStatusInfo)
    (tx : Transaction) (store : List Transaction) (hex : info.txExists = true) :
    ∀ t ∈ (TransactionMonitor.check_transaction true (some info) tx store).1,
      t.hash = tx.hash → t.confirmations = info.confirmations := by
  intro t ht hh
  rw [check_transaction_store_eq info tx store hex] at ht
  rcases update_status_mem store tx.hash info.confirmations info.block_number none t ht with
    ⟨_, hne⟩ | ⟨tx', _, _, rfl⟩
  · exact absurd hh hne
  · exact updateFields_confirmations tx' info.confirmations info.block_number none

/-- C1 witness: the amended statement at the concrete anomaly — stored 10,
read 3 — establishes the written record holds 3. -/
theorem check_transaction_writes_read_count_witness :
    (TransactionRepository.updateFields txMid 3 (some 50) none).confirmations = 3 :=
  check_transaction_writes_read_count infoLow txMid [txMid] rfl
    (TransactionRepository.updateFields txMid 3 (some 50) none) (by decide) (by decide)

/-! ### C2 — intermediate milestones are absolute and skippable -/

/-- C2 counterexample: observing required = 12 and a jump 0 → 12 in one
tick crosses the 25%, 50% and 75% marks (3, 6 and 9 confirmations), yet
the tick requests no intermediate milestone notification at all — only the
confirmed one. -/
theorem check_transaction_drops_intermediate_milestones :
    txZero.confirmations = 0 ∧ txZero.confirmations_required = 12 ∧
    infoJump.confirmations = 12 ∧
    (TransactionMonitor.check_transaction true (some infoJump) txZero [txZero]).2
      = [Notification.confirmedNote "z" 12] ∧
    ((TransactionMonitor.check_transaction true (some infoJump) txZero [txZero]).2.filter
        Notification.isProgress) = [] := by
  decide

/-- C2 (amended): a `_check_transaction` tick requests at most one
intermediate progress notification, and exactly when the tick does not
cross the confirmed threshold, the read count strictly exceeds the stored
count, and the read count is exactly 3, 6 or 9 (absolute counts, not
fractions of the requirement); milestones jumped over are skipped. -/
theorem check_transaction_progress_policy (info : TxStatusInfo)
    (tx : Transaction) (store : List Transaction) (hex : info.txExists = true) :
    (TransactionMonitor.check_transaction true (some info) tx store).2.filter
        Notification.isProgress
      = if ¬(tx.confirmations_required ≤ info.confirmations ∧
              tx.confirmations < tx.confirmations_required) ∧
           tx.confirmations < info.confirmations ∧
           (info.confirmations = 3 ∨ info.confirmations = 6 ∨ info.confirmations = 9)
        then [Notification.progressNote tx.hash info.confirmations]
        else [] := by
  unfold TransactionMonitor.check_transaction
  simp only [Bool.not_true, Bool.false_eq_true, if_false, hex]
  by_cases h1 : tx.confirmations_required ≤ info.confirmations ∧
      tx.confirmations < tx.confirmations_required
  · rw [if_pos h1, if_neg (by intro h; exact h.1 h1)]
    rfl
  · rw [if_neg h1]
    by_cases h2 : tx.confirmations < info.confirmations ∧
        (info.confirmations = 3 ∨ info.confirmations = 6 ∨ info.confirmations = 9)
    · rw [if_pos h2, if_pos ⟨h1, h2⟩]
      simp [Notification.isProgress]
    · rw [if_neg h2, if_neg (by intro h; exact h2 h.2)]
      rfl

/-- C2 witness: the amended statement at stored 0, read 3, required 12 —
the tick requests exactly the single 3-confirmation progress
notification. -/
theorem check_transaction_progress_policy_witness :
    (TransactionMonitor.check_transaction true (some infoThree) txZero [txZero]).2.filter
        Notification.isProgress = [Notification.progressNote "z" 3] := by
  rw [check_transaction_progress_policy infoThree txZero [txZero] rfl]
  decide

/-! ### C3 — the circuit breaker resets on cooldown elapse, not on success -/

/-- C3 counterexample: an endpoint sitting at the failure threshold (5)
whose cooldown (60) has elapsed gets its failure counter reset to 0 by the
availability check itself, although no call against it succeeded —
refuting "the failure counter is reset to 0 only if a call against it
succeeds".  With the counter back at 0 the endpoint is fully closed again
and receives the whole retry budget, not exactly one half-open probe. -/
theorem is_node_available_resets_without_success :
    staleNode.failures = 5 ∧ cfgDefault.circuit_breaker_threshold = 5 ∧
    RPCManager.is_node_available cfgDefault 100 staleNode
      = (true, { staleNode with failures := 0 }) := by
  decide

/-- C3 (amended): when an endpoint's failures have reached the threshold
and the cooldown has elapsed, `_is_node_available` reports the endpoint
available and resets its failure counter to 0 on the spot — the reset is
caused by the cooldown elapsing, before and regardless of any call
succeeding, and the re-opened endpoint then gets the full per-endpoint
retry budget rather than exactly one probe. -/
theorem is_node_available_cooldown_reset (cfg : RPCManagerCfg) (now : Int)
    (node : RPCNode)
    (h1 : cfg.circuit_breaker_threshold ≤ node.failures)
    (h2 : cfg.circuit_breaker_timeout < now - node.last_failure) :
    RPCManager.is_node_available cfg now node
      = (true, { node with failures := 0 }) := by
  unfold RPCManager.is_node_available
  rw [if_neg (not_lt.mpr h1), if_pos h2]

/-- C3 witness: the amended statement at the default configuration, an
endpoint with 5 failures last failing at time 0, checked at time 100. -/
theorem is_node_available_cooldown_reset_witness :
    RPCManager.is_node_available cfgDefault 100 staleNode
      = (true, { staleNode with failures := 0 }) :=
  is_node_available_cooldown_reset cfgDefault 100 staleNode (by decide) (by decide)

/-! ### C5 — the confirmed notification is deduplicated through Redis -/

/-- After `setex`, `get` on the same key returns the value just stored. -/
theorem RedisStore.get_setex (r : RedisStore) (k : String) (ttl : Nat) (v : String) :
    (r.setex k ttl v).get k = some v := by
  simp [RedisStore.get, RedisStore.setex]

/-- After `setex`, the key's TTL is the one just stored. -/
theorem RedisStore.ttlOf_setex (r : RedisStore) (k : String) (ttl : Nat) (v : String) :
    (r.setex k ttl v).ttlOf k = some ttl := by
  simp [RedisStore.ttlOf, RedisStore.setex]

/-- C5: with the dedup store available and the key not yet marked, two
successive invocations of the "confirmed" crossing notification logic for
the same (hash, owner) make exactly one delivery request: the first
delivers and marks the dedup key sent with a 7-day TTL (604800 s), the
second finds the key present and skips, leaving the store unchanged. -/
theorem send_confirmation_twice_delivers_once (r : RedisStore)
    (tx_hash : String) (user_id : Nat)
    (h : r.get (TransactionMonitor.notificationKey tx_hash user_id) = none) :
    (TransactionMonitor.send_confirmation_notification (some r) tx_hash user_id).2 = 1 ∧
    (TransactionMonitor.send_confirmation_notification (some r) tx_hash user_id).1
      = some (r.setex (TransactionMonitor.notificationKey tx_hash user_id) 604800 "1") ∧
    (r.setex (TransactionMonitor.notificationKey tx_hash user_id) 604800 "1").ttlOf
        (TransactionMonitor.notificationKey tx_hash user_id) = some 604800 ∧
    (TransactionMonitor.send_confirmation_notification
        (TransactionMonitor.send_confirmation_notification (some r) tx_hash user_id).1
        tx_hash user_id).2 = 0 ∧
    (TransactionMonitor.send_confirmation_notification
        (TransactionMonitor.send_confirmation_notification (some r) tx_hash user_id).1
        tx_hash user_id).1
      = (TransactionMonitor.send_confirmation_notification (some r) tx_hash user_id).1 := by
  have e1 : TransactionMonitor.send_confirmation_notification (some r) tx_hash user_id
      = (some (r.setex (TransactionMonitor.notificationKey tx_hash user_id) 604800 "1"), 1) := by
    unfold TransactionMonitor.send_confirmation_notification
    dsimp only []
    rw [h]
  have e2 : TransactionMonitor.send_confirmation_notification
      (some (r.setex (TransactionMonitor.notificationKey tx_hash user_id) 604800 "1"))
      tx_hash user_id
      = (some (r.setex (TransactionMonitor.notificationKey tx_hash user_id) 604800 "1"), 0) := by
    unfold TransactionMonitor.send_confirmation_notification
    dsimp only []
    rw [RedisStore.get_setex]
  refine ⟨by rw [e1], by rw [e1],
    RedisStore.ttlOf_setex r (TransactionMonitor.notificationKey tx_hash user_id) 604800 "1",
    by rw [e1, e2], by rw [e1, e2]⟩

/-- C5 witness: the dedup flow at an empty store, hash `"0xabc"`, owner 7. -/
theorem send_confirmation_twice_delivers_once_witness :
    (TransactionMonitor.send_confirmation_notification (some ⟨[]⟩) "0xabc" 7).2 = 1 ∧
    (TransactionMonitor.send_confirmation_notification
        (TransactionMonitor.send_confirmation_notification (some ⟨[]⟩) "0xabc" 7).1
        "0xabc" 7).2 = 0 := by
  have h := send_confirmation_twice_delivers_once ⟨[]⟩ "0xabc" 7 rfl
  exact ⟨h.1, h.2.2.2.1⟩

/-! ### C6 — failover across three endpoints -/

/-- If every attempt against an endpoint raises, its attempt loop yields
nothing. -/
theorem attemptLoop_none {R : Type} (f : Nat → Option R) (n : Nat)
    (h : ∀ k, f k = none) : RPCManager.attemptLoop f n = none := by
  unfold RPCManager.attemptLoop
  rw [List.findSome?_eq_none_iff]
  exact fun x _ => h x

/-- C6: with three available endpoints in priority order where every
attempt against endpoints 1 and 2 raises and endpoint 3's attempt loop
succeeds with `r`, `call_with_retry` returns `r`; afterwards endpoints 1
and 2 each carry one more failure with the failure timestamp recorded, and
endpoint 3's failure counter equals 0. -/
theorem call_with_retry_failover {R : Type} (cfg : RPCManagerCfg) (now : Int)
    (f : String → Nat → Option R) (n1 n2 n3 : RPCNode) (r : R)
    (h1 : n1.failures < cfg.circuit_breaker_threshold)
    (h2 : n2.failures < cfg.circuit_breaker_threshold)
    (h3 : n3.failures < cfg.circuit_breaker_threshold)
    (hf1 : ∀ k, f n1.url k = none)
    (hf2 : ∀ k, f n2.url k = none)
    (hf3 : RPCManager.attemptLoop (f n3.url) cfg.max_retries = some r) :
    RPCManager.call_with_retry cfg now f [n1, n2, n3]
      = (some r, [RPCManager.record_failure now n1,
                  RPCManager.record_failure now n2,
                  RPCManager.record_success n3]) ∧
    (RPCManager.record_failure now n1).failures = n1.failures + 1 ∧
    (RPCManager.record_failure now n1).last_failure = now ∧
    (RPCManager.record_failure now n2).failures = n2.failures + 1 ∧
    (RPCManager.record_failure now n2).last_failure = now ∧
    (RPCManager.record_success n3).failures = 0 := by
  refine ⟨?_, rfl, rfl, rfl, rfl, rfl⟩
  have a1 : RPCManager.is_node_available cfg now n1 = (true, n1) := by
    unfold RPCManager.is_node_available; rw [if_pos h1]
  have a2 : RPCManager.is_node_available cfg now n2 = (true, n2) := by
    unfold RPCManager.is_node_available; rw [if_pos h2]
  have a3 : RPCManager.is_node_available cfg now n3 = (true, n3) := by
    unfold RPCManager.is_node_available; rw [if_pos h3]
  have s3 : RPCManager.call_with_retry cfg now f [n3]
      = (some r, [RPCManager.record_success n3]) := by
    unfold RPCManager.call_with_retry
    rw [a3]
    dsimp only []
    rw [hf3]
    rfl
  have s2 : RPCManager.call_with_retry cfg now f [n2, n3]
      = (some r, [RPCManager.record_failure now n2,
                  RPCManager.record_success n3]) := by
    unfold RPCManager.call_with_retry
    rw [a2]
    dsimp only []
    rw [attemptLoop_none (f n2.url) cfg.max_retries hf2]
    dsimp only []
    rw [s3]
    rfl
  unfold RPCManager.call_with_retry
  rw [a1]
  dsimp only []
  rw [attemptLoop_none (f n1.url) cfg.max_retries hf1]
  dsimp only []
  rw [s2]
  rfl

/-- C6 witness: three concrete endpoints where `u1` and `u2` always raise
and `u3` answers 42. -/
theorem call_with_retry_failover_witness :
    RPCManager.call_with_retry cfgDefault 100 behaviorThird [nodeA, nodeB, nodeC]
      = (some 42, [RPCManager.record_failure 100 nodeA,
                   RPCManager.record_failure 100 nodeB,
                   RPCManager.record_success nodeC]) :=
  (call_with_retry_failover cfgDefault 100 behaviorThird nodeA nodeB nodeC 42
    (by decide) (by decide) (by decide)
    (fun _ => rfl) (fun _ => rfl) rfl).1

/-! ### C7 — collect never raises and isolates failing sources -/

/-- C7: `collect` is a total function of the two polling outcomes — an
exception raised by `poll_new_transactions` or `poll_mempool` is caught
and that source contributes an empty batch, while the other source's
events still come through; two failing sources yield an empty event
list.  A failing chain therefore cannot crash its watcher's tick. -/
theorem collect_isolates_failures {α : Type} (e e' : String) (evs : List α) :
    BaseChainWatcher.collect (Except.error e) (Except.ok evs) = evs ∧
    BaseChainWatcher.collect (Except.ok evs) (Except.error e) = evs ∧
    BaseChainWatcher.collect (Except.error e) (Except.error e') = ([] : List α) ∧
    BaseChainWatcher.collect_safe (Except.error e) = ([] : List α) := by
  refine ⟨?_, ?_, rfl, rfl⟩ <;>
    simp [BaseChainWatcher.collect, BaseChainWatcher.collect_safe]

/-! ### C9 — ledger status mapping -/

/-- C9 counterexample: a ledger transaction whose native status is
`"declined"` is mapped by `tx_status` to `"error"`, not to `"failed"` as
the claim states. -/
theorem tx_status_declined_is_error_not_failed :
    CF20RPCClient.tx_status false [{ status := some "declined" }] = some "error" ∧
    CF20RPCClient.tx_status false [{ status := some "declined" }] ≠ some "failed" := by
  decide

/-- C9 (amended): `tx_status` checks the mempool first and returns
`"pending"` whenever the hash is present there, regardless of history;
only otherwise does it consult the transaction history, mapping the native
status `"accepted"` to `"confirmed"` and `"declined"` to `"error"` (the
failure value — not the literal `"failed"`), normalizing a missing status
field to `"unknown"` and an empty history to no answer instead of
raising. -/
theorem tx_status_mapping (txs rest : List LedgerTx) :
    CF20RPCClient.tx_status true txs = some "pending" ∧
    CF20RPCClient.tx_status false ({ status := some "accepted" } :: rest) = some "confirmed" ∧
    CF20RPCClient.tx_status false ({ status := some "declined" } :: rest) = some "error" ∧
    CF20RPCClient.tx_status false ({ status := none } :: rest) = some "unknown" ∧
    CF20RPCClient.tx_status false ([] : List LedgerTx) = none := by
  refine ⟨rfl, ?_, ?_, rfl, rfl⟩ <;> simp [CF20RPCClient.tx_status]

/-! ### C8 — EVM tracker status fields -/

/-- C8: for the EVM tracker on a fetched transaction, no block number
means pending with 0 confirmations; otherwise the reported count is
`current_block − tx_block + 1` clamped at 0 (never negative), the
confirmed flag is set iff that count reaches the required threshold, and
when a receipt is available its status decides success versus revert. -/
theorem evm_status_fields (required : Int) (tx_hash : String) (view : EvmView)
    (t : EvmTx) (htx : view.tx = Except.ok t) :
    (t.blockNumber = none →
        (EVMTransactionTracker.get_transaction_status required tx_hash view).pending = true ∧
        (EVMTransactionTracker.get_transaction_status required tx_hash view).confirmations = 0) ∧
    (∀ b : Int, t.blockNumber = some b →
        (EVMTransactionTracker.get_transaction_status required tx_hash view).confirmations
            = max 0 (view.block_number - b + 1) ∧
        0 ≤ (EVMTransactionTracker.get_transaction_status required tx_hash view).confirmations ∧
        ((EVMTransactionTracker.get_transaction_status required tx_hash view).confirmed = true ↔
            required ≤ max 0 (view.block_number - b + 1)) ∧
        ∀ rc : EvmReceipt, view.receipt = some rc →
          ((EVMTransactionTracker.get_transaction_status required tx_hash view).success = true ↔
            rc.status = some 1)) := by
  obtain ⟨vtx, height, receipt⟩ := view
  dsimp only [] at htx
  subst htx
  obtain ⟨bn⟩ := t
  cases bn with
  | none =>
    constructor
    · intro _
      exact ⟨rfl, rfl⟩
    · intro b hb
      exact absurd hb (by simp)
  | some b0 =>
    constructor
    · intro hb
      exact absurd hb (by simp)
    · intro b hb
      have hbb : b0 = b := by simpa using hb
      subst hbb
      refine ⟨?_, ?_, ?_, ?_⟩
      · cases receipt with
        | none =>
          simp [EVMTransactionTracker.get_transaction_status,
            EVMTransactionTracker.get_transaction_confirmations]
        | some rc =>
          by_cases hrc : rc.status = some 1 <;>
            simp [EVMTransactionTracker.get_transaction_status,
              EVMTransactionTracker.get_transaction_confirmations, hrc]
      · cases receipt with
        | none =>
          simp [EVMTransactionTracker.get_transaction_status,
            EVMTransactionTracker.get_transaction_confirmations]
        | some rc =>
          by_cases hrc : rc.status = some 1 <;>
            simp [EVMTransactionTracker.get_transaction_status,
              EVMTransactionTracker.get_transaction_confirmations, hrc]
      · cases receipt with
        | none =>
          simp [EVMTransactionTracker.get_transaction_status,
            EVMTransactionTracker.get_transaction_confirmations]
        | some rc =>
          by_cases hrc : rc.status = some 1 <;>
            simp [EVMTransactionTracker.get_transaction_status,
              EVMTransactionTracker.get_transaction_confirmations, hrc]
      · intro rc hrc
        subst hrc
        by_cases hst : rc.status = some 1 <;>
          simp [EVMTransactionTracker.get_transaction_status,
            EVMTransactionTracker.get_transaction_confirmations, hst]

/-- C8 witness: a transaction mined at block 5 with head at block 10 and a
successful receipt, at threshold 6 — confirmations 6, confirmed, success. -/
theorem evm_status_fields_witness :
    (EVMTransactionTracker.get_transaction_status 6 "0xdef" viewMined).confirmations
        = max 0 (10 - 5 + 1) ∧
    ((EVMTransactionTracker.get_transaction_status 6 "0xdef" viewMined).confirmed = true ↔
        (6 : Int) ≤ max 0 (10 - 5 + 1)) := by
  have h := (evm_status_fields 6 "0xdef" viewMined { blockNumber := some 5 } rfl).2 5 rfl
  exact ⟨h.1, h.2.2.1⟩
